import Mathlib

/-!
Verification of the NISAR HDF5 GDAL plugin (nisar-hdf5-gdalplugin).

This file gives a shallow embedding of the core algorithms of the driver
and proves (or refutes) the specification claims about them:

* `NisarRasterBand.IReadBlock` (src/conda-build/nisar-gdal-recipe/nisarrasterband.cpp)
  — tiled block access with out-of-bounds zero fill and partial-edge padding;
* `NisarDataset.GetGeoTransform` (nisardataset.cpp) — affine transform
  derivation from sibling coordinate arrays for gridded (Level-2) products;
* `NisarDataset.GenerateGCPsFromGeolocationGrid` (nisardataset.cpp) —
  GCP-grid generation for swath (Level-1) products;
* `NISAR_FindDatasetsVisitor` and the discovery branch of `NisarDataset::Open`
  (nisardataset.cpp) — subdataset discovery;
* the validity-mask decode rules of `NisarHDF5MaskBand` (declared in
  nisar_priv.h).

Doubles of the C++ code are embedded as rationals (`ℚ`); the store reads of
the HDF5 layer are embedded as explicit inputs (`Option`-valued fields for
reads that can fail), so every failure branch of the code corresponds to a
`none`/`false` input.
-/

/-! ## TileReader: `NisarRasterBand::IReadBlock`

The destination buffer is modelled at element granularity (one `BufVal` per
pixel of the `nBlockXSize × nBlockYSize` block): every `memset` of the code
fills whole elements. A cell holds either

* `BufVal.data r c` — the on-disk sample of raster row `r`, column `c`
  (what `H5Dread` delivered there),
* `BufVal.fill`     — the `0xAA` debug pattern the code pre-fills the buffer
  with before `H5Dread` (nisarrasterband.cpp lines 402–405), or
* `BufVal.zero`     — a zeroed byte region (`memset(..., 0, ...)`).
-/

/-- One element of the destination buffer of `IReadBlock`. -/
inductive BufVal where
  | data (row col : Nat)
  | fill
  | zero
deriving DecidableEq, Repr

/-- Shallow embedding of `NisarRasterBand::IReadBlock`
(nisarrasterband.cpp lines 319–457) for a 2-D dataset.

Arguments: `readOk` abstracts the success of the `H5Dread` call; `rX, rY`
are `nRasterXSize, nRasterYSize`; `bX, bY` are `nBlockXSize, nBlockYSize`;
`oX, oY` are `nBlockXOff, nBlockYOff`.  The result is the `CE_None`/
`CE_Failure` status (as `Bool`, `true` = `CE_None`) paired with the final
buffer contents, as a function of the flat element index
`k < bX * bY` (row-major, stride `bX`).

The code path, in order:
1. wholly-outside check (`start_offset_x >= nRasterXSize || ...`):
   `memset 0`, return success;
2. `nActualBlockXSize/YSize = min(...)`; non-positive: `memset 0`, success;
3. pre-fill the whole buffer with `0xAA`;
4. `H5Dread` with a *contiguous* `aY × aX` memory space: element `k` of the
   buffer, for `k < aY * aX`, receives the sample at raster row
   `startY + k / aX`, column `startX + k % aX`;
5. partial-block padding: zero columns `[aX, bX)` of the first `aY` lines at
   stride `bX`, then zero all of lines `[aY, bY)`. -/
def IReadBlock (readOk : Bool) (rX rY bX bY oX oY : Nat) :
    Bool × (Nat → BufVal) :=
  let startX := oX * bX
  let startY := oY * bY
  if startX ≥ rX ∨ startY ≥ rY then
    (true, fun _ => .zero)
  else
    let aX := min bX (rX - startX)
    let aY := min bY (rY - startY)
    if aX = 0 ∨ aY = 0 then
      (true, fun _ => .zero)
    else if readOk = false then
      (false, fun _ => .fill)
    else
      (true, fun k =>
        -- the two padding memsets run after H5Dread, so they win
        if aY < bY ∧ aY * bX ≤ k then .zero
        else if aX < bX ∧ aX ≤ k % bX ∧ k / bX < aY then .zero
        else if k < aY * aX then .data (startY + k / aX) (startX + k % aX)
        else .fill)

/-- The buffer layout the specification claims `IReadBlock` produces for a
partially overlapping block: real data in the top-left `aX × aY` region *at
stride `bX`*, zero everywhere else. -/
def SpecBlockLayout (rX rY bX bY oX oY : Nat) (buf : Nat → BufVal) : Prop :=
  let startX := oX * bX
  let startY := oY * bY
  let aX := min bX (rX - startX)
  let aY := min bY (rY - startY)
  ∀ k < bX * bY,
    buf k = if k % bX < aX ∧ k / bX < aY then
              .data (startY + k / bX) (startX + k % bX)
            else .zero

/-! ## MaskDecoder: `NisarHDF5MaskBand`

`nisar_priv.h` lines 17–21 declare the two decode families:

```
enum class NisarMaskType {
    GCOV, // Logic: 1-5 Valid; 0, 255 Invalid
    GUNW  // Logic: Digit parsing (Ref != 0 && Sec != 0)
};
```

The member function `NisarHDF5MaskBand::IReadBlock` that applies them is
declared in nisar_priv.h but its definition is not part of the sources
under src/, so the per-byte decode is modelled from the specification.
-/

/-- Mask decode family selector (nisar_priv.h lines 18–21). Spelled
`rangeChecked` = `GCOV`, `digitPacked` = `GUNW` in the spec's terms. -/
inductive NisarMaskType where
  | GCOV
  | GUNW
deriving DecidableEq, Repr

/-- Modelled from the spec: the per-byte decode of
`NisarHDF5MaskBand::IReadBlock`, whose definition is absent from src/
(only declared in nisar_priv.h, with the decode logic stated in the
comments of `NisarMaskType`).  Per the spec (§4.6):
range-checked (GCOV) family: raw value in [1,5] → valid (255); 0 or 255 →
invalid (0); digit-packed (GUNW) family: 255 → invalid; otherwise valid
iff both base-10 digits (tens, ones) are non-zero. -/
def maskDecode (t : NisarMaskType) (b : Nat) : Nat :=
  match t with
  | .GCOV => if 1 ≤ b ∧ b ≤ 5 then 255 else 0
  | .GUNW => if b = 255 then 0
             else if b / 10 ≠ 0 ∧ b % 10 ≠ 0 then 255 else 0

/-! ## GridGeoref: `NisarDataset::GetGeoTransform`

`GetGeoTransform` (nisardataset.cpp lines 3668–3876) is a sequence of store
probes; each probe is embedded as a field of `GeoState` (`Option`/`Bool`
valued: `none`/`false` is the corresponding failure branch of the code).
Doubles are embedded as `ℚ`.
-/

/-- The six affine coefficients
`[originX, pixelW, rotX, originY, rotY, pixelH]`
(`m_adfGeoTransform` / `adfCalcGT` in nisardataset.cpp). -/
structure GeoTransform where
  originX : ℚ
  pixelW : ℚ
  rotX : ℚ
  originY : ℚ
  rotY : ℚ
  pixelH : ℚ
deriving DecidableEq, Repr

/-- The coordinate-array branch of `GetGeoTransform` (nisardataset.cpp
lines 3784–3861): given the opened `xCoordinates` and `yCoordinates`
arrays, require both lengths ≥ 2 (line 3797), read the first and last
value of each, set the per-axis resolution to
`(last − first) / (count − 1)` (lines 3820–3821) and the origin to
`first − 0.5 × resolution` (lines 3827–3828), with zero rotation terms
(lines 3830–3836). -/
def derivedGridGT (xs ys : List ℚ) : Option GeoTransform :=
  if 2 ≤ xs.length ∧ 2 ≤ ys.length then
    let xStart := xs.getD 0 0
    let xEnd := xs.getD (xs.length - 1) 0
    let yStart := ys.getD 0 0
    let yEnd := ys.getD (ys.length - 1) 0
    let resX := (xEnd - xStart) / ((xs.length - 1 : ℕ) : ℚ)
    let resY := (yEnd - yStart) / ((ys.length - 1 : ℕ) : ℚ)
    some ⟨xStart - (1/2) * resX, resX, 0, yStart - (1/2) * resY, 0, resY⟩
  else none

/-- The store- and cache-state `GetGeoTransform` reads, one field per
probe of the code:
* `cachedGT` — `m_bGotGeoTransform` / `m_adfGeoTransform` (lines 3691–3700);
* `gcpCount` — `GetGCPCount()` (line 3705);
* `hDatasetValid` — `hDataset >= 0` (line 3706);
* `gtAttr` — result of `ReadGeoTransformAttribute(hDataset,
  "GeoTransform")` (line 3711; `none` = absent/malformed);
* `isLevel2` — `m_bIsLevel2` (line 3734);
* `inGridHierarchy` — the dataset path contains `/grids/`,
  `/calibrationInformation/` or `/radarGrid/` (lines 3739–3743);
* `coords` — the sibling `xCoordinates`/`yCoordinates` arrays found by the
  upward path walk and successfully opened (lines 3750–3784; `none` = walk
  found no ancestor with coordinates, or opening them failed). -/
structure GeoState where
  cachedGT : Option GeoTransform
  gcpCount : Nat
  hDatasetValid : Bool
  gtAttr : Option GeoTransform
  isLevel2 : Bool
  inGridHierarchy : Bool
  coords : Option (List ℚ × List ℚ)

/-- Shallow embedding of `NisarDataset::GetGeoTransform` (nisardataset.cpp
lines 3668–3876), `some` = `CE_None` with the returned transform,
`none` = `CE_Failure`. -/
def GetGeoTransform (s : GeoState) : Option GeoTransform :=
  match s.cachedGT with
  | some gt => some gt
  | none =>
    if 0 < s.gcpCount then none
    else if s.hDatasetValid = false then none
    else
      match s.gtAttr with
      | some gt => some gt
      | none =>
        if s.isLevel2 = true ∧ s.inGridHierarchy = true then
          match s.coords with
          | some (xs, ys) => derivedGridGT xs ys
          | none => none
        else none

/-- `GetGCPs` succeeds exactly when the raster holds at least one GCP
(the GDAL base-class accessor returns the list attached by `SetGCPs`;
nothing else in the driver attaches GCPs). -/
def GetGCPsSucceeds (s : GeoState) : Bool := 0 < s.gcpCount

/-- A coordinate array of `n` evenly spaced pixel centers with step `step`
starting at `c0` (the synthetic input of the spec's affine round-trip
property). -/
def evenCenters (c0 step : ℚ) (n : Nat) : List ℚ :=
  (List.range n).map fun i : ℕ => c0 + step * (i : ℚ)

/-! ### Claims C1, C4, C5 -/

/-- **C4.** For every block read whose requested block lies entirely outside
the raster extent (`oX * bX ≥ rX` or `oY * bY ≥ rY`), `IReadBlock` returns
success (`CE_None`) and every element of the destination buffer is zero
(nisarrasterband.cpp lines 354–368). -/
theorem C4_out_of_bounds_read_zero_fill_success
    (readOk : Bool) (rX rY bX bY oX oY : Nat)
    (h : oX * bX ≥ rX ∨ oY * bY ≥ rY) :
    (IReadBlock readOk rX rY bX bY oX oY).1 = true ∧
    ∀ k, (IReadBlock readOk rX rY bX bY oX oY).2 k = .zero := by
  unfold IReadBlock
  simp only [ge_iff_le]
  rw [if_pos (by omega)]
  exact ⟨rfl, fun _ => rfl⟩

/-- Witness for C4: block (2,3) of an 10×10 raster with 8×8 blocks starts at
(16,24), outside the raster; the read succeeds and element 0 is zero. -/
theorem C4_witness :
    (16 ≥ 10 ∨ 24 ≥ 10) ∧
    ((IReadBlock true 10 10 8 8 2 3).1 = true ∧
     ∀ k, (IReadBlock true 10 10 8 8 2 3).2 k = .zero) :=
  ⟨Or.inl (by norm_num),
   C4_out_of_bounds_read_zero_fill_success true 10 10 8 8 2 3
     (Or.inl (by norm_num))⟩

/-- **C1** (refuted; the code is the bug). The spec's own test case: raster
10×10, block 8×8, read at block origin (1,1) (pixel offset (8,8), in-bounds
region 2×2).  The claim says the buffer holds real data in its top-left
2×2 region at stride 8 — in particular `buf 8 = data 9 8` — and zero
elsewhere.  The code instead: `H5Dread` wrote the four samples
*contiguously* into elements 0–3, the right-edge padding memset then
zeroed elements 2–3 (destroying the second row of data), and elements 8–9
still hold the `0xAA` debug pre-fill, so `buf 8 = fill ≠ data 9 8`. -/
theorem C1_partial_block_layout_bug :
    ¬ SpecBlockLayout 10 10 8 8 1 1 (IReadBlock true 10 10 8 8 1 1).2 ∧
    (IReadBlock true 10 10 8 8 1 1).2 0 = .data 8 8 ∧
    (IReadBlock true 10 10 8 8 1 1).2 1 = .data 8 9 ∧
    (IReadBlock true 10 10 8 8 1 1).2 2 = .zero ∧
    (IReadBlock true 10 10 8 8 1 1).2 8 = .fill ∧
    (IReadBlock true 10 10 8 8 1 1).2 9 = .fill := by
  refine ⟨fun h => ?_, by decide, by decide, by decide, by decide, by decide⟩
  have h8 := h 8 (by norm_num)
  revert h8
  decide

set_option maxRecDepth 4096 in
/-- **C5.** The mask decode is a pure mapping selected by product family:
under the range-checked (GCOV) family a byte decodes to valid (255) iff it
lies in [1,5] (in particular 0 and 255 decode to invalid 0); under the
digit-packed (GUNW) family 255 decodes to invalid, and any other byte
decodes to valid iff both of its base-10 digits (`b / 10` and `b % 10`)
are non-zero. -/
theorem C5_mask_decode_families :
    ∀ b : Fin 256,
      (maskDecode .GCOV b = 255 ↔ 1 ≤ b.val ∧ b.val ≤ 5) ∧
      (maskDecode .GCOV b ≠ 255 → maskDecode .GCOV b = 0) ∧
      maskDecode .GCOV 0 = 0 ∧ maskDecode .GCOV 255 = 0 ∧
      maskDecode .GUNW 255 = 0 ∧
      (b.val ≠ 255 →
        (maskDecode .GUNW b = 255 ↔ b.val / 10 ≠ 0 ∧ b.val % 10 ≠ 0)) ∧
      (maskDecode .GUNW b ≠ 255 → maskDecode .GUNW b = 0) := by
  decide

/-! ### Claims C2, C7 -/

/-- Helper: length of a synthetic evenly-spaced coordinate array. -/
lemma evenCenters_length (c0 step : ℚ) (n : Nat) :
    (evenCenters c0 step n).length = n := by
  unfold evenCenters
  rw [List.length_map, List.length_range]

/-- Helper: the `i`-th center of a synthetic coordinate array. -/
lemma evenCenters_getD (c0 step : ℚ) (n i : Nat) (h : i < n) :
    (evenCenters c0 step n).getD i 0 = c0 + step * (i : ℚ) := by
  have hlen : i < (evenCenters c0 step n).length := by
    rw [evenCenters_length]; exact h
  rw [List.getD_eq_getElem _ _ hlen]
  simp only [evenCenters, List.getElem_map, List.getElem_range]

/-- **C2.** For a gridded (Level-2) raster without an explicit GeoTransform
attribute, when the upward walk finds sibling coordinate arrays `xs`, `ys`
of lengths ≥ 2, `GetGeoTransform` returns
`pixelSize = (last − first) / (count − 1)` per axis,
`origin = first − 0.5 × pixelSize` per axis, and zero rotation terms；
in particular for evenly spaced centers with step `s` starting at `c0`
it produces `pixelSize = s` and `origin = c0 − 0.5 · s`. -/
theorem C2_grid_geotransform_from_coordinates
    (s : GeoState) (xs ys : List ℚ)
    (hc : s.cachedGT = none) (hg : s.gcpCount = 0)
    (hd : s.hDatasetValid = true) (ha : s.gtAttr = none)
    (hl : s.isLevel2 = true) (hgr : s.inGridHierarchy = true)
    (hco : s.coords = some (xs, ys))
    (hx : 2 ≤ xs.length) (hy : 2 ≤ ys.length) :
    (GetGeoTransform s =
      some { originX := xs.getD 0 0 -
               (1/2) * ((xs.getD (xs.length - 1) 0 - xs.getD 0 0) /
                 ((xs.length - 1 : ℕ) : ℚ)),
             pixelW := (xs.getD (xs.length - 1) 0 - xs.getD 0 0) /
               ((xs.length - 1 : ℕ) : ℚ),
             rotX := 0,
             originY := ys.getD 0 0 -
               (1/2) * ((ys.getD (ys.length - 1) 0 - ys.getD 0 0) /
                 ((ys.length - 1 : ℕ) : ℚ)),
             rotY := 0,
             pixelH := (ys.getD (ys.length - 1) 0 - ys.getD 0 0) /
               ((ys.length - 1 : ℕ) : ℚ) }) ∧
    (∀ (c0 stepX d0 stepY : ℚ) (n m : Nat), 2 ≤ n → 2 ≤ m →
      xs = evenCenters c0 stepX n → ys = evenCenters d0 stepY m →
      GetGeoTransform s =
        some ⟨c0 - (1/2) * stepX, stepX, 0,
              d0 - (1/2) * stepY, 0, stepY⟩) := by
  have hmain : GetGeoTransform s =
      some { originX := xs.getD 0 0 -
               (1/2) * ((xs.getD (xs.length - 1) 0 - xs.getD 0 0) /
                 ((xs.length - 1 : ℕ) : ℚ)),
             pixelW := (xs.getD (xs.length - 1) 0 - xs.getD 0 0) /
               ((xs.length - 1 : ℕ) : ℚ),
             rotX := 0,
             originY := ys.getD 0 0 -
               (1/2) * ((ys.getD (ys.length - 1) 0 - ys.getD 0 0) /
                 ((ys.length - 1 : ℕ) : ℚ)),
             rotY := 0,
             pixelH := (ys.getD (ys.length - 1) 0 - ys.getD 0 0) /
               ((ys.length - 1 : ℕ) : ℚ) } := by
    simp [GetGeoTransform, hc, hg, hd, ha, hl, hgr, hco, derivedGridGT,
      hx, hy]
  refine ⟨hmain, ?_⟩
  rintro c0 stepX d0 stepY n m hn hm rfl rfl
  rw [hmain]
  have hxlen := evenCenters_length c0 stepX n
  have hylen := evenCenters_length d0 stepY m
  have hcastn : ((n - 1 : ℕ) : ℚ) = (n : ℚ) - 1 := by
    push_cast [Nat.cast_sub (by omega : 1 ≤ n)]; ring
  have hcastm : ((m - 1 : ℕ) : ℚ) = (m : ℚ) - 1 := by
    push_cast [Nat.cast_sub (by omega : 1 ≤ m)]; ring
  have hx0 : (evenCenters c0 stepX n).getD 0 0 = c0 := by
    rw [evenCenters_getD c0 stepX n 0 (by omega)]; norm_num
  have hy0 : (evenCenters d0 stepY m).getD 0 0 = d0 := by
    rw [evenCenters_getD d0 stepY m 0 (by omega)]; norm_num
  have hxl : (evenCenters c0 stepX n).getD ((evenCenters c0 stepX n).length - 1) 0
      = c0 + stepX * ((n : ℚ) - 1) := by
    rw [hxlen, evenCenters_getD c0 stepX n (n - 1) (by omega)]
    rw [Nat.cast_sub (by omega : 1 ≤ n)]; norm_num
  have hyl : (evenCenters d0 stepY m).getD ((evenCenters d0 stepY m).length - 1) 0
      = d0 + stepY * ((m : ℚ) - 1) := by
    rw [hylen, evenCenters_getD d0 stepY m (m - 1) (by omega)]
    rw [Nat.cast_sub (by omega : 1 ≤ m)]; norm_num
  have hnne : ((n : ℚ) - 1) ≠ 0 := by
    have : (2 : ℚ) ≤ (n : ℚ) := by exact_mod_cast hn
    intro hcontra; nlinarith
  have hmne : ((m : ℚ) - 1) ≠ 0 := by
    have : (2 : ℚ) ≤ (m : ℚ) := by exact_mod_cast hm
    intro hcontra; nlinarith
  rw [hx0, hy0, hxl, hyl, hxlen, hylen, hcastn, hcastm]
  congr 1
  have hsx : (c0 + stepX * ((n : ℚ) - 1) - c0) / ((n : ℚ) - 1) = stepX := by
    field_simp
  have hsy : (d0 + stepY * ((m : ℚ) - 1) - d0) / ((m : ℚ) - 1) = stepY := by
    field_simp
  rw [hsx, hsy]

/-- Witness for C2: a 3-point X array `[0, 2, 4]` (centers starting at 0,
step 2) and Y array `[10, 7, 4]` (centers starting at 10, step −3) yield
pixel sizes 2 and −3 and origins −1 and 11.5. -/
theorem C2_witness :
    GetGeoTransform ⟨none, 0, true, none, true, true,
        some ([0, 2, 4], [10, 7, 4])⟩ =
      some ⟨(0 : ℚ) - (1/2) * 2, 2, 0, (10 : ℚ) - (1/2) * (-3), 0, -3⟩ :=
  (C2_grid_geotransform_from_coordinates
      ⟨none, 0, true, none, true, true, some ([0, 2, 4], [10, 7, 4])⟩
      [0, 2, 4] [10, 7, 4] rfl rfl rfl rfl rfl rfl rfl
      (by norm_num) (by norm_num)).2
    0 2 10 (-3) 3 3 (by norm_num) (by norm_num)
    (by simp [evenCenters, List.range_succ]; norm_num)
    (by simp [evenCenters, List.range_succ]; norm_num)

/-- **C7** (refuted as stated). The claim says exactly one of
`GetGeoTransform`/`GetGCPs` succeeds for every successfully classified
raster.  Counterexample: a successfully classified Level-2 raster (valid
dataset handle, `m_bIsLevel2 = true`, in a grid hierarchy) with no explicit
`GeoTransform` attribute and no coordinate arrays found by the upward walk
has no GCPs either, and *both* calls fail. -/
theorem C7_counterexample_both_fail_for_level2 :
    (GeoState.mk none 0 true none true true none).isLevel2 = true ∧
    GetGeoTransform (GeoState.mk none 0 true none true true none) = none ∧
    GetGCPsSucceeds (GeoState.mk none 0 true none true true none) = false :=
  ⟨rfl, rfl, rfl⟩

/-- **C7 (amended).** For every open raster whose transform cache is still
unpopulated (as holds for any raster straight after open): at most one of
`GetGeoTransform`/`GetGCPs` succeeds; whenever the raster holds one or more
GCPs, `GetGeoTransform` fails, and `GetGCPs` succeeds exactly when the
raster holds one or more GCPs; container (catalog-only) rasters (invalid
dataset handle, no GCPs) fail both; Unknown-level rasters without an
explicit GeoTransform attribute and without GCPs fail both. -/
theorem C7_amended_georeferencing_mutual_exclusion
    (s : GeoState) (hc : s.cachedGT = none) :
    (0 < s.gcpCount → GetGeoTransform s = none) ∧
    (GetGCPsSucceeds s = true ↔ 0 < s.gcpCount) ∧
    (¬ (GetGeoTransform s ≠ none ∧ GetGCPsSucceeds s = true)) ∧
    (s.hDatasetValid = false → s.gcpCount = 0 →
       GetGeoTransform s = none ∧ GetGCPsSucceeds s = false) ∧
    (s.isLevel2 = false → s.gtAttr = none → s.gcpCount = 0 →
       GetGeoTransform s = none ∧ GetGCPsSucceeds s = false) := by
  have hgcp : GetGCPsSucceeds s = true ↔ 0 < s.gcpCount := by
    simp [GetGCPsSucceeds]
  have hfail : 0 < s.gcpCount → GetGeoTransform s = none := by
    intro h
    simp [GetGeoTransform, hc, h]
  refine ⟨hfail, hgcp, ?_, ?_, ?_⟩
  · rintro ⟨hne, hgc⟩
    exact hne (hfail (hgcp.mp hgc))
  · intro hdv hg0
    refine ⟨?_, by simp [GetGCPsSucceeds, hg0]⟩
    simp [GetGeoTransform, hc, hdv, hg0]
  · intro hl ha hg0
    refine ⟨?_, by simp [GetGCPsSucceeds, hg0]⟩
    simp [GetGeoTransform, hc, ha, hg0, hl]

/-- Witness for the amended C7: a raster holding 3 GCPs (fresh cache) has
`GetGeoTransform` failing while `GetGCPs` succeeds. -/
theorem C7_amended_witness :
    GetGeoTransform ⟨none, 3, true, none, false, false, none⟩ = none ∧
    GetGCPsSucceeds ⟨none, 3, true, none, false, false, none⟩ = true := by
  have h := C7_amended_georeferencing_mutual_exclusion
    ⟨none, 3, true, none, false, false, none⟩ rfl
  exact ⟨h.1 (by norm_num), h.2.1.mpr (by norm_num)⟩

/-! ## SwathGCPGenerator: `NisarDataset::GenerateGCPsFromGeolocationGrid`

`GenerateGCPsFromGeolocationGrid` (nisardataset.cpp lines 4354–4732) reads
a fixed sequence of store items, any failure jumping to `cleanup` with
`CE_Failure` before `SetGCPs` is ever called; on full success `SetGCPs` is
called exactly once with the complete list and the CRS.  Each store read
is embedded as an `Option`/`Bool` field of `SwathInputs`, in the order the
code performs them.
-/

/-- One ground control point (`GDAL_GCP`): `pixel = dfGCPPixel`,
`line = dfGCPLine`, `mapX = dfGCPX`, `mapY = dfGCPY`, `mapZ = dfGCPZ`. -/
structure GCP where
  pixel : ℚ
  line : ℚ
  mapX : ℚ
  mapY : ℚ
  mapZ : ℚ
deriving DecidableEq, Repr

/-- The GCP built for azimuth index `i`, range index `j`
(nisardataset.cpp lines 4664–4682): map coordinates from the flattened
coordinate slices at `i * rangeCount + j`, `mapZ = 0`,
`pixel = (slantRange[j] − startingRange) / rangeSpacing + 0.5`,
`line = ((epoch + zeroDopplerTime[i]) − sceneStartTime) × PRF + 0.5`. -/
def mkGCP (xs ys az sr : List ℚ) (startingRange spacing prf epoch t0 : ℚ)
    (i j : Nat) : GCP :=
  { pixel := (sr.getD j 0 - startingRange) / spacing + 1/2
    line := ((epoch + az.getD i 0) - t0) * prf + 1/2
    mapX := xs.getD (i * sr.length + j) 0
    mapY := ys.getD (i * sr.length + j) 0
    mapZ := 0 }

/-- The GCP-list loop (nisardataset.cpp lines 4656–4691): a row-major
double loop over azimuth index `i < azimuth_times.size()` and range index
`j < slant_ranges.size()`.  Element accesses use `std::vector::at`, whose
out-of-range exception is caught and turned into `CE_Failure`
(lines 4686–4691); every accessed index is in range exactly when
`az.length * sr.length ≤ min xs.length ys.length` (accesses into `az` and
`sr` are always in range), so that condition guards the `some` result. -/
def buildGCPList (xs ys az sr : List ℚ)
    (startingRange spacing prf epoch t0 : ℚ) : Option (List GCP) :=
  if az.length * sr.length ≤ min xs.length ys.length then
    some ((List.range az.length).flatMap fun i =>
      (List.range sr.length).map fun j =>
        mkGCP xs ys az sr startingRange spacing prf epoch t0 i j)
  else none

/-- Helper: length of a row-major double-loop grid. -/
lemma grid_flatMap_length {α : Type} (f : Nat → Nat → α) (A R : Nat) :
    ((List.range A).flatMap fun i => (List.range R).map (f i)).length
      = A * R := by
  induction A with
  | zero => simp
  | succ a ih =>
    rw [List.range_succ, List.flatMap_append, List.length_append, ih]
    simp [Nat.succ_mul]

/-- Helper: element `(i, j)` of a row-major double-loop grid sits at flat
index `i * R + j`. -/
lemma grid_flatMap_getD {α : Type} (f : Nat → Nat → α) (A R i j : Nat)
    (hi : i < A) (hj : j < R) (d : α) :
    ((List.range A).flatMap fun i => (List.range R).map (f i)).getD
      (i * R + j) d = f i j := by
  induction A with
  | zero => omega
  | succ a ih =>
    rw [List.range_succ, List.flatMap_append]
    rcases Nat.lt_or_ge i a with hia | hia
    · rw [List.getD_append _ _ _ _ (by
        rw [grid_flatMap_length]
        calc i * R + j < i * R + R := by omega
        _ = (i + 1) * R := by ring
        _ ≤ a * R := Nat.mul_le_mul_right R (by omega))]
      exact ih hia
    · have hieq : i = a := by omega
      subst hieq
      rw [List.getD_append_right _ _ _ _ (by rw [grid_flatMap_length]; omega)]
      rw [grid_flatMap_length]
      have hsub : i * R + j - i * R = j := by omega
      rw [hsub]
      simp only [List.flatMap_cons, List.flatMap_nil, List.append_nil]
      rw [List.getD_eq_getElem _ _ (by simpa using hj)]
      simp

/-- The store reads `GenerateGCPsFromGeolocationGrid` performs, one field
per read in source order (nisardataset.cpp lines 4407–4654); `none`/`false`
is the corresponding `goto cleanup` failure branch:
* `gridGroupOk` — `H5Gopen2` of `.../metadata/geolocationGrid` (line 4408);
* `epsg` — read of the scalar `epsg` dataset (line 4427; the code also
  requires it to be positive);
* `coordX`, `coordY` — `Read2DSliceAsVec` of `coordinateX`/`coordinateY`,
  the height-index-0 slice of the 3-D cube (lines 4441–4442);
* `slantRangeArr`, `zeroDopplerTimeArr` — `Read1DDoubleVec` of the grid's
  `slantRange` and `zeroDopplerTime` arrays (lines 4443–4444);
* `zdtReopenOk` — the reopen of `zeroDopplerTime` for its attribute
  (line 4457);
* `epochParsed` — the `"seconds since %d-%d-%dT%d:%d:%d"` parse of the
  `units` attribute, converted to Unix time (lines 4467–4487);
* `startingRange` — first element of the swath `slantRange` dataset
  (lines 4492–4530);
* `rangeSpacing` — `slantRangeSpacing` (lines 4535–4546);
* `prf` — `nominalAcquisitionPRF` (lines 4551–4565);
* `sceneStartParsed` — read and ISO-parse of `zeroDopplerStartTime`
  (lines 4570–4644);
* `epsgImportOk` — `importFromEPSG` (line 4648). -/
structure SwathInputs where
  gridGroupOk : Bool
  epsg : Option Int
  coordX : Option (List ℚ)
  coordY : Option (List ℚ)
  slantRangeArr : Option (List ℚ)
  zeroDopplerTimeArr : Option (List ℚ)
  zdtReopenOk : Bool
  epochParsed : Option ℚ
  startingRange : Option ℚ
  rangeSpacing : Option ℚ
  prf : Option ℚ
  sceneStartParsed : Option ℚ
  epsgImportOk : Bool

/-- Shallow embedding of `NisarDataset::GenerateGCPsFromGeolocationGrid`
(nisardataset.cpp lines 4354–4732): each failing read jumps to `cleanup`
with `CE_Failure` (`none`); on full success the result is the complete GCP
list paired with the EPSG code of its coordinate-reference descriptor. -/
def GenerateGCPsFromGeolocationGrid (inp : SwathInputs) :
    Option (List GCP × Int) :=
  if inp.gridGroupOk = false then none
  else match inp.epsg with
  | none => none
  | some e =>
    if e ≤ 0 then none
    else match inp.coordX with
    | none => none
    | some xs => match inp.coordY with
      | none => none
      | some ys => match inp.slantRangeArr with
        | none => none
        | some sr => match inp.zeroDopplerTimeArr with
          | none => none
          | some az =>
            if inp.zdtReopenOk = false then none
            else match inp.epochParsed with
            | none => none
            | some epoch => match inp.startingRange with
              | none => none
              | some r0 => match inp.rangeSpacing with
                | none => none
                | some sp => match inp.prf with
                  | none => none
                  | some prf => match inp.sceneStartParsed with
                    | none => none
                    | some t0 =>
                      if inp.epsgImportOk = false then none
                      else
                        match buildGCPList xs ys az sr r0 sp prf epoch t0 with
                        | none => none
                        | some l => some (l, e)

/-- The observable effect of one `GenerateGCPsFromGeolocationGrid` call on
a freshly opened raster: the attached GCP list + CRS (set by the single
`SetGCPs` call at nisardataset.cpp line 4694, only reached on full
success) and the returned status (`true` = `CE_None`). -/
def runGenerateGCPs (inp : SwathInputs) : Option (List GCP × Int) × Bool :=
  match GenerateGCPsFromGeolocationGrid inp with
  | none => (none, false)
  | some r => (some r, true)

/-- Helper: a successful generation implies every input read succeeded. -/
lemma generateGCPs_some_inputs (inp : SwathInputs) (r : List GCP × Int)
    (h : GenerateGCPsFromGeolocationGrid inp = some r) :
    inp.gridGroupOk = true ∧ inp.epsg ≠ none ∧ inp.coordX ≠ none ∧
    inp.coordY ≠ none ∧ inp.slantRangeArr ≠ none ∧
    inp.zeroDopplerTimeArr ≠ none ∧ inp.zdtReopenOk = true ∧
    inp.epochParsed ≠ none ∧ inp.startingRange ≠ none ∧
    inp.rangeSpacing ≠ none ∧ inp.prf ≠ none ∧
    inp.sceneStartParsed ≠ none ∧ inp.epsgImportOk = true := by
  unfold GenerateGCPsFromGeolocationGrid at h
  repeat' split at h
  all_goals simp_all

/-! ### Claims C3, C6, C10 -/

/-- **C3.** When every input reads successfully (the index range check of
the loop holds, i.e. `buildGCPList` succeeds), the generated GCP grid has
exactly `azimuthSamples × rangeSamples` entries, ordered row-major by
azimuth then range, and the GCP at azimuth `i`, range `j` has `mapX`/`mapY`
from the coordinate slices at flattened index `i * rangeCount + j`,
`pixel = (slantRange[j] − startingRange)/rangeSpacing + 0.5` and
`line = ((epoch + zeroDopplerTime[i]) − sceneStartTime) × PRF + 0.5`. -/
theorem C3_swath_gcp_grid_layout
    (xs ys az sr : List ℚ) (r0 sp prf epoch t0 : ℚ) (l : List GCP)
    (h : buildGCPList xs ys az sr r0 sp prf epoch t0 = some l) :
    l.length = az.length * sr.length ∧
    ∀ i j, i < az.length → j < sr.length →
      l.getD (i * sr.length + j) ⟨0, 0, 0, 0, 0⟩ =
        { pixel := (sr.getD j 0 - r0) / sp + 1/2
          line := ((epoch + az.getD i 0) - t0) * prf + 1/2
          mapX := xs.getD (i * sr.length + j) 0
          mapY := ys.getD (i * sr.length + j) 0
          mapZ := 0 } := by
  unfold buildGCPList at h
  split at h
  · cases h
    refine ⟨grid_flatMap_length _ _ _, fun i j hi hj => ?_⟩
    rw [grid_flatMap_getD _ _ _ _ _ hi hj]
    rfl
  · cases h

/-- Witness for C3: a 1×2 geolocation grid (one azimuth sample, two range
samples) with coordinate slices `[1,2]`/`[3,4]`; the GCP at `(0,1)` is at
flat index 1 and carries the stated formulas. -/
theorem C3_witness :
    ∃ l, buildGCPList [1, 2] [3, 4] [5] [6, 7] 0 1 10 100 90 = some l ∧
      l.length = [(5 : ℚ)].length * [(6 : ℚ), 7].length ∧
      l.getD (0 * [(6 : ℚ), 7].length + 1) ⟨0, 0, 0, 0, 0⟩ =
        { pixel := ([(6 : ℚ), 7].getD 1 0 - 0) / 1 + 1/2
          line := ((100 + [(5 : ℚ)].getD 0 0) - 90) * 10 + 1/2
          mapX := [(1 : ℚ), 2].getD (0 * [(6 : ℚ), 7].length + 1) 0
          mapY := [(3 : ℚ), 4].getD (0 * [(6 : ℚ), 7].length + 1) 0
          mapZ := 0 } := by
  refine ⟨_, rfl, ?_, ?_⟩
  · exact (C3_swath_gcp_grid_layout [1, 2] [3, 4] [5] [6, 7]
      0 1 10 100 90 _ rfl).1
  · exact (C3_swath_gcp_grid_layout [1, 2] [3, 4] [5] [6, 7]
      0 1 10 100 90 _ rfl).2 0 1 (by norm_num) (by norm_num)

/-- **C6.** GCP generation is all-or-nothing: if any required input is
missing or unreadable (geolocation group, EPSG code, coordinate slices,
range/azimuth arrays, any scalar parameter, either timestamp, or the CRS
import), the call returns a single failure and no GCPs are attached; the
GCP list and its coordinate-reference descriptor are attached only by the
single `SetGCPs` call on full success, with the complete grid. -/
theorem C6_gcp_generation_all_or_nothing (inp : SwathInputs) :
    ((inp.gridGroupOk = false ∨ inp.epsg = none ∨ inp.coordX = none ∨
      inp.coordY = none ∨ inp.slantRangeArr = none ∨
      inp.zeroDopplerTimeArr = none ∨ inp.zdtReopenOk = false ∨
      inp.epochParsed = none ∨ inp.startingRange = none ∨
      inp.rangeSpacing = none ∨ inp.prf = none ∨
      inp.sceneStartParsed = none ∨ inp.epsgImportOk = false) →
      runGenerateGCPs inp = (none, false)) ∧
    (∀ r, GenerateGCPsFromGeolocationGrid inp = some r →
      runGenerateGCPs inp = (some r, true)) := by
  constructor
  · intro hdis
    rcases hres : GenerateGCPsFromGeolocationGrid inp with _ | r
    · simp [runGenerateGCPs, hres]
    · exfalso
      have hall := generateGCPs_some_inputs inp r hres
      rcases hdis with h | h | h | h | h | h | h | h | h | h | h | h | h <;>
        simp_all
  · intro r hr
    simp [runGenerateGCPs, hr]

/-- Witness for C6: an input whose geolocation group fails to open leaves
the raster without GCPs and returns failure. -/
theorem C6_witness :
    runGenerateGCPs
      ⟨false, some 32611, some [1], some [2], some [3], some [4], true,
       some 100, some 0, some 1, some 10, some 90, true⟩ = (none, false) :=
  (C6_gcp_generation_all_or_nothing
      ⟨false, some 32611, some [1], some [2], some [3], some [4], true,
       some 100, some 0, some 1, some 10, some 90, true⟩).1
    (Or.inl rfl)

/-- **C10.** Every GCP produced by swath GCP generation has map Z
coordinate exactly 0 (nisardataset.cpp line 4669 assigns `dfGCPZ = 0.0`
unconditionally; only the height-index-0 slices of the geolocation cube
feed `mapX`/`mapY` and no height value is ever read into a GCP). -/
theorem C10_gcp_mapZ_always_zero (inp : SwathInputs) (r : List GCP × Int)
    (h : GenerateGCPsFromGeolocationGrid inp = some r) :
    ∀ g ∈ r.1, g.mapZ = 0 := by
  unfold GenerateGCPsFromGeolocationGrid at h
  repeat' split at h
  all_goals try cases h
  case _ hbuild =>
    intro g hg
    unfold buildGCPList at hbuild
    split at hbuild
    · cases hbuild
      simp only [List.mem_flatMap, List.mem_map] at hg
      obtain ⟨i, -, j, -, rfl⟩ := hg
      rfl
    · cases hbuild

/-- Witness for C10: a concrete 1×1 generation succeeds and its single
GCP has `mapZ = 0`. -/
theorem C10_witness :
    ∃ r, GenerateGCPsFromGeolocationGrid
        ⟨true, some 32611, some [1], some [2], some [3], some [4], true,
         some 100, some 0, some 1, some 10, some 90, true⟩ = some r ∧
      ∀ g ∈ r.1, g.mapZ = 0 :=
  ⟨_, rfl,
   C10_gcp_mapZ_always_zero
     ⟨true, some 32611, some [1], some [2], some [3], some [4], true,
      some 100, some 0, some 1, some 10, some 90, true⟩ _ rfl⟩


/-! ## Discovery: `NISAR_FindDatasetsVisitor` and the discovery branch of
`NisarDataset::Open`

`H5Ovisit` presents every object of the store to the visitor
(nisardataset.cpp lines 766–887) in native iteration order; the visitor
either appends one path to the catalog or returns `H5_ITER_CONT` without
appending (every per-candidate failure returns `H5_ITER_CONT`).  Paths are
embedded as character lists, matching the character-wise `strncmp` prefix
test of the code.
-/

/-- `H5O_info2_t.type` as inspected by the visitor (line 788). -/
inductive H5ObjType where
  | dataset
  | group
  | namedType
deriving DecidableEq, Repr

/-- One object presented to the visitor: `name` is the full path relative
to the root (no leading slash, as `H5Ovisit` provides it), `openOk` is the
success of the `H5Dopen2` re-open (line 826), `isDatasetHandle` the
`H5Iget_type(dset_id) == H5I_DATASET` re-check (line 837), and `rank` the
extent rank obtained through `H5Dget_space` (`none` = the dataspace could
not be obtained, line 852; the rank is an `Int` since
`H5Sget_simple_extent_ndims` can return a negative error code). -/
structure H5Obj where
  name : List Char
  otype : H5ObjType
  openOk : Bool
  isDatasetHandle : Bool
  rank : Option Int
deriving DecidableEq, Repr

/-- Shallow embedding of `NISAR_FindDatasetsVisitor` (nisardataset.cpp
lines 766–887): `some path` = the candidate is appended to the catalog
(with a leading slash, lines 822–823 and 877), `none` = the candidate is
skipped and iteration continues (`H5_ITER_CONT`).  Filters in source
order: object type (line 788), instrument-root prefix via `strncmp`
(lines 797–808), open failure (line 827), handle re-check (line 837),
dataspace failure (line 852), rank < 2 (line 864). -/
def NISAR_FindDatasetsVisitor (o : H5Obj) : Option (List Char) :=
  if o.otype ≠ H5ObjType.dataset then none
  else if ¬("science/LSAR/".toList.isPrefixOf o.name = true ∨
            "science/SSAR/".toList.isPrefixOf o.name = true) then none
  else if o.openOk = false then none
  else if o.isDatasetHandle = false then none
  else match o.rank with
  | none => none
  | some r => if r < 2 then none else some ('/' :: o.name)

/-- The full discovery walk: the catalog is the in-order concatenation of
the visitor's accepted paths over every visited object. -/
def runDiscovery (objs : List H5Obj) : List (List Char) :=
  objs.filterMap NISAR_FindDatasetsVisitor

/-- The discovery branch of `NisarDataset::Open` (nisardataset.cpp lines
3079–3221, reached when no explicit array path or open options are given):
if the walk found at least one path, a container dataset carrying the
`SUBDATASETS` catalog is returned (line 3213); if it found none, the
dataset is deleted and `nullptr` is returned (lines 3215–3221). -/
def OpenDiscovery (objs : List H5Obj) : Option (List (List Char)) :=
  let found := runDiscovery objs
  if found.isEmpty then none
  else some found

/-! ### Claims C8, C9 -/

/-- **C8.** An array visited during discovery is included in the catalog
iff it is a dataset whose path lies under `science/LSAR/` or
`science/SSAR/` and whose rank is ≥ 2 (given its open/inspection
succeeded); the included entry is its absolute path; and any candidate the
visitor rejects — for whatever reason, including open/inspect failure —
skips only that candidate: the walk continues unchanged around it. -/
theorem C8_discovery_filter :
    (∀ o : H5Obj, o.openOk = true → o.isDatasetHandle = true →
      (NISAR_FindDatasetsVisitor o = some ('/' :: o.name) ↔
        (o.otype = H5ObjType.dataset ∧
         ("science/LSAR/".toList.isPrefixOf o.name = true ∨
          "science/SSAR/".toList.isPrefixOf o.name = true) ∧
         ∃ r : Int, o.rank = some r ∧ 2 ≤ r))) ∧
    (∀ (pre : List H5Obj) (o : H5Obj) (post : List H5Obj),
      runDiscovery (pre ++ o :: post) =
        runDiscovery pre ++ (NISAR_FindDatasetsVisitor o).toList ++
          runDiscovery post) := by
  constructor
  · intro o hopen hhandle
    constructor
    · intro h
      unfold NISAR_FindDatasetsVisitor at h
      split at h
      · cases h
      · split at h
        · cases h
        · split at h
          · cases h
          · split at h
            · cases h
            · rcases hr : o.rank with _ | r
              · rw [hr] at h; cases h
              · rw [hr] at h
                have h' : (if r < 2 then none
                    else some ('/' :: o.name)) = some ('/' :: o.name) := h
                by_cases hlt : r < 2
                · rw [if_pos hlt] at h'
                  cases h'
                · refine ⟨?_, ?_, r, rfl, by omega⟩
                  · by_contra hne
                    simp_all
                  · by_contra hne
                    simp_all
    · rintro ⟨ht, hpre, r, hr, h2⟩
      unfold NISAR_FindDatasetsVisitor
      rw [if_neg (not_not.mpr ht), if_neg (not_not.mpr hpre),
        if_neg (by simp [hopen]), if_neg (by simp [hhandle]), hr]
      show (if r < 2 then none else some ('/' :: o.name)) =
        some ('/' :: o.name)
      rw [if_neg (by omega)]
  · intro pre o post
    unfold runDiscovery
    rw [List.filterMap_append, List.filterMap_cons]
    rcases h : NISAR_FindDatasetsVisitor o with _ | p <;> simp [h]

/-- Witness for C8: a rank-2 dataset under the LSAR root is catalogued; a
rank-1 dataset under the root and a rank-3 dataset outside the root are
skipped in place, leaving only the qualifying entry. -/
theorem C8_witness :
    (NISAR_FindDatasetsVisitor
        ⟨"science/LSAR/GSLC/grids/frequencyA/HH".toList, .dataset, true,
          true, some 2⟩ =
      some ('/' :: "science/LSAR/GSLC/grids/frequencyA/HH".toList)) ∧
    runDiscovery
        [⟨"science/LSAR/identification/listOfFrequencies".toList, .dataset,
            true, true, some 1⟩,
         ⟨"science/LSAR/GSLC/grids/frequencyA/HH".toList, .dataset, true,
            true, some 2⟩,
         ⟨"outside/cube".toList, .dataset, true, true, some 3⟩] =
      ['/' :: "science/LSAR/GSLC/grids/frequencyA/HH".toList] := by
  constructor
  · exact (C8_discovery_filter.1
      ⟨"science/LSAR/GSLC/grids/frequencyA/HH".toList, .dataset, true,
        true, some 2⟩ rfl rfl).mpr
      ⟨rfl, Or.inl (by decide), 2, rfl, by norm_num⟩
  · have h := C8_discovery_filter.2
      [⟨"science/LSAR/identification/listOfFrequencies".toList, .dataset,
          true, true, some 1⟩]
      ⟨"science/LSAR/GSLC/grids/frequencyA/HH".toList, .dataset, true,
        true, some 2⟩
      [⟨"outside/cube".toList, .dataset, true, true, some 3⟩]
    rw [show
      ([⟨"science/LSAR/identification/listOfFrequencies".toList, .dataset,
          true, true, some 1⟩] ++
        ⟨"science/LSAR/GSLC/grids/frequencyA/HH".toList, .dataset, true,
          true, some 2⟩ ::
        [⟨"outside/cube".toList, .dataset, true, true, some 3⟩] :
        List H5Obj) =
      [⟨"science/LSAR/identification/listOfFrequencies".toList, .dataset,
          true, true, some 1⟩,
       ⟨"science/LSAR/GSLC/grids/frequencyA/HH".toList, .dataset, true,
          true, some 2⟩,
       ⟨"outside/cube".toList, .dataset, true, true, some 3⟩] from rfl] at h
    rw [h]
    decide

/-- **C9** (refuted; the open fails instead). At the explicit input of a
store whose only array is a 1-D dataset under the root (so the walk
completes finding zero qualifying arrays), the discovery branch of `Open`
returns no dataset at all (`delete poDS; return nullptr`,
nisardataset.cpp lines 3215–3221), not an empty-container success. -/
theorem C9_counterexample_empty_walk_fails :
    runDiscovery
        [⟨"science/LSAR/identification/listOfFrequencies".toList, .dataset,
            true, true, some 1⟩] = [] ∧
    OpenDiscovery
        [⟨"science/LSAR/identification/listOfFrequencies".toList, .dataset,
            true, true, some 1⟩] = none := by
  decide

/-- **C9 (amended).** When `Open` runs discovery and the walk completes
finding zero qualifying arrays, the open *fails* (returns no dataset);
a container result is returned exactly when the walk found at least one
qualifying array, and then it carries the full catalog. -/
theorem C9_amended_empty_discovery_fails (objs : List H5Obj) :
    (runDiscovery objs = [] → OpenDiscovery objs = none) ∧
    (runDiscovery objs ≠ [] →
      OpenDiscovery objs = some (runDiscovery objs)) := by
  constructor
  · intro h
    simp [OpenDiscovery, h]
  · intro h
    simp [OpenDiscovery, List.isEmpty_iff, h]

/-- Witness for the amended C9: the store of the counterexample (one
non-qualifying 1-D array) makes `Open` fail. -/
theorem C9_amended_witness :
    OpenDiscovery
        [⟨"science/LSAR/identification/listOfFrequencies".toList, .dataset,
            true, true, some 1⟩] = none :=
  (C9_amended_empty_discovery_fails
      [⟨"science/LSAR/identification/listOfFrequencies".toList, .dataset,
          true, true, some 1⟩]).1 (by decide)

/-- Witness for C5 at the spec's own test bytes: GCOV 3 → 255,
GUNW 23 → 255, GUNW 20 → 0, GUNW 255 → 0, GCOV 0 → 0, GCOV 255 → 0. -/
theorem C5_witness :
    maskDecode .GCOV 3 = 255 ∧ maskDecode .GUNW 23 = 255 ∧
    maskDecode .GUNW 20 = 0 ∧ maskDecode .GUNW 255 = 0 ∧
    maskDecode .GCOV 0 = 0 ∧ maskDecode .GCOV 255 = 0 := by
  have h3 := C5_mask_decode_families ⟨3, by norm_num⟩
  have h23 := C5_mask_decode_families ⟨23, by norm_num⟩
  have h20 := C5_mask_decode_families ⟨20, by norm_num⟩
  have h255 := C5_mask_decode_families ⟨255, by norm_num⟩
  have h0 := C5_mask_decode_families ⟨0, by norm_num⟩
  refine ⟨h3.1.mpr ⟨by norm_num, by norm_num⟩, ?_, ?_,
    h255.2.2.2.2.1, h0.2.2.1, h255.2.2.2.1⟩
  · exact (h23.2.2.2.2.2.1 (by norm_num)).mpr ⟨by norm_num, by norm_num⟩
  · refine h20.2.2.2.2.2.2 ?_
    intro hcontra
    have hdig := (h20.2.2.2.2.2.1 (by norm_num)).mp hcontra
    norm_num at hdig
